import Mathlib

/-!
Verification of the two boundary layers in this repository:
the C++ gRPC security facade (`system/gd/security/facade.cc`, the
`SecurityModuleFacadeModule` part) and the Java `BluetoothHapClient`
binder proxy concatenated in the same source file.

The embedding is shallow.  Pointers to stack modules, handlers and
attribution sources are opaque `Nat` tokens; the binder service is
`Option Unit` (`none` models a null proxy); the remote side of a
forwarded call is an oracle value of type `CallResult` describing what
`SynchronousResultReceiver.awaitResultNoInterrupt(...).getValue(default)`
observes (a received value, no value, `RemoteException`,
`TimeoutException`).  Logging is a no-op and is omitted.  Every public
proxy method in the Java source is the same literal shape
(null-service check, guard, forward, await, catch, default), so that
shape is factored into `proxyCall`; each method supplies its own
default value, guard expression and forwarded call, read off the
source verbatim.
-/

namespace BtSpec

/-! ### C++ facade: `SecurityModuleFacadeModule` -/

/-- The stack modules named in `facade.cc`. -/
inductive GdModule where
  | SecurityModule
  | L2capLeModule
  | L2capClassicModule
  | HciLayer
deriving DecidableEq

abbrev ModuleList := List GdModule

/-- `ModuleList::add<T>()` appends one module to the dependency list. -/
def ModuleList.add (list : ModuleList) (m : GdModule) : ModuleList :=
  list ++ [m]

/-- `SecurityModuleFacadeModule::ListDependencies`: first the base
`GrpcFacadeModule::ListDependencies` (its behaviour is not in this
repository, so it is passed in as an arbitrary function), then four
`list->add<...>()` calls in source order. -/
def SecurityModuleFacadeModule.ListDependencies
    (grpcFacadeModuleListDependencies : ModuleList → ModuleList)
    (list : ModuleList) : ModuleList :=
  ((((grpcFacadeModuleListDependencies list).add
      GdModule.SecurityModule).add
      GdModule.L2capLeModule).add
      GdModule.L2capClassicModule).add
      GdModule.HciLayer

/-- The `SecurityModuleFacadeService` object.  Its constructor takes five
pointers but its member-initializer list stores only four of them:
`hci_layer` is a constructor parameter with no corresponding member. -/
structure SecurityModuleFacadeService where
  security_module_ : Nat
  l2cap_le_module_ : Nat
  l2cap_classic_module_ : Nat
  security_handler_ : Nat
deriving DecidableEq

/-- The `SecurityModuleFacadeService` constructor, parameters in source
order.  `hci_layer` is accepted and dropped, exactly as in the source. -/
def SecurityModuleFacadeService.construct (security_module : Nat)
    (l2cap_le_module : Nat) (l2cap_classic_module : Nat)
    (hci_layer : Nat) (security_handler : Nat) : SecurityModuleFacadeService :=
  { security_module_ := security_module
    l2cap_le_module_ := l2cap_le_module
    l2cap_classic_module_ := l2cap_classic_module
    security_handler_ := security_handler }

/-- The dependencies `GetDependency<T>()` and `GetHandler()` resolve to
when `Start` runs, as opaque tokens. -/
structure FacadeDeps where
  securityModule : Nat
  l2capLeModule : Nat
  l2capClassicModule : Nat
  hciLayer : Nat
  handler : Nat
deriving DecidableEq

/-- Mutable state of `SecurityModuleFacadeModule`: its `service_` field. -/
structure FacadeModuleState where
  service_ : Option SecurityModuleFacadeService
deriving DecidableEq

/-- Observable events of `SecurityModuleFacadeModule::Start`, in the
order they happen. -/
inductive FacadeEvent where
  | grpcFacadeModuleStart
  | newSecurityModuleFacadeService (svc : SecurityModuleFacadeService)
deriving DecidableEq

/-- `SecurityModuleFacadeModule::Start`: call the base
`GrpcFacadeModule::Start`, then construct the service from the four
dependencies and the handler and store it in `service_`.  Returns the
new module state and the event trace in execution order. -/
def SecurityModuleFacadeModule.Start (deps : FacadeDeps)
    (s : FacadeModuleState) : FacadeModuleState × List FacadeEvent :=
  let svc := SecurityModuleFacadeService.construct deps.securityModule
    deps.l2capLeModule deps.l2capClassicModule deps.hciLayer deps.handler
  ({ s with service_ := some svc },
    [FacadeEvent.grpcFacadeModuleStart,
     FacadeEvent.newSecurityModuleFacadeService svc])

/-- `SecurityModuleFacadeModule::GetService` returns the stored
`service_` pointer. -/
def SecurityModuleFacadeModule.GetService (s : FacadeModuleState) :
    Option SecurityModuleFacadeService :=
  s.service_

/-! ### Java `BluetoothHapClient`: constants

Values of the Android SDK constants the proxy uses.  The defining Java
files (`BluetoothProfile`, `BluetoothAdapter`, `IBluetoothHapClient`)
are not part of this repository; only the distinctness of the values
matters to the proofs. -/

/-- `BluetoothProfile.CONNECTION_POLICY_UNKNOWN`. -/
def CONNECTION_POLICY_UNKNOWN : Int := -1

/-- `BluetoothProfile.CONNECTION_POLICY_FORBIDDEN`. -/
def CONNECTION_POLICY_FORBIDDEN : Int := 0

/-- `BluetoothProfile.CONNECTION_POLICY_ALLOWED`. -/
def CONNECTION_POLICY_ALLOWED : Int := 100

/-- `BluetoothProfile.STATE_DISCONNECTED`. -/
def STATE_DISCONNECTED : Int := 0

/-- `BluetoothAdapter.STATE_ON`. -/
def STATE_ON : Int := 12

/-- `IBluetoothHapClient.GROUP_ID_UNAVAILABLE`, re-exported by the proxy
as `HAP_GROUP_UNAVAILABLE`. -/
def HAP_GROUP_UNAVAILABLE : Int := -1

/-! ### Adapter and device -/

/-- The default `BluetoothAdapter`, reduced to the one observable the
proxy reads: its state. -/
structure BluetoothAdapter where
  state : Int
deriving DecidableEq

def BluetoothAdapter.getState (a : BluetoothAdapter) : Int :=
  a.state

/-- Modelled from the spec: `BluetoothAdapter.isEnabled` is not in this
repository; per its documented behaviour it reports whether the adapter
state is `STATE_ON`. -/
def BluetoothAdapter.isEnabled (a : BluetoothAdapter) : Bool :=
  a.state == STATE_ON

/-- A `BluetoothDevice` reference, reduced to its address string
(`getAddress` may return null, hence `Option`).  A null device
reference is `Option BluetoothDevice` at use sites. -/
structure BluetoothDevice where
  address : Option String
deriving DecidableEq

def BluetoothDevice.getAddress (d : BluetoothDevice) : Option String :=
  d.address

/-- Character check of one position of a Bluetooth address: positions
`i` with `i % 3 == 2` must be a colon, the rest an upper-case
hexadecimal digit. -/
def checkAddressChars : List Char → Nat → Bool
  | [], _ => true
  | ch :: rest, i =>
    if i % 3 == 2 then
      if ch == ':' then checkAddressChars rest (i + 1) else false
    else
      if (('0' ≤ ch && ch ≤ '9') || ('A' ≤ ch && ch ≤ 'F')) then
        checkAddressChars rest (i + 1)
      else false

/-- Modelled from the spec: `BluetoothAdapter.checkBluetoothAddress` is
not in this repository; per its documented behaviour it accepts exactly
the non-null 17-character strings of the form `"00:43:A8:23:10:F0"`
with upper-case hexadecimal digits. -/
def checkBluetoothAddress (address : Option String) : Bool :=
  match address with
  | none => false
  | some a => a.length == 17 && checkAddressChars a.data 0

/-! ### Proxy object state and remote-call observations -/

/-- The fields of the `BluetoothHapClient` proxy object.  The profile
connector and the close guard carry no data the methods read, so they
are opaque tokens; they are kept so frame properties can be stated. -/
structure ClientState where
  mAdapter : BluetoothAdapter
  mAttributionSource : Nat
  mProfileConnector : Nat
  mCloseGuardOpen : Bool
deriving DecidableEq

/-- Private helper `isEnabled()` of the proxy:
`mAdapter.getState() == BluetoothAdapter.STATE_ON`. -/
def isEnabled (c : ClientState) : Bool :=
  if c.mAdapter.getState == STATE_ON then true else false

/-- Private helper `isValidDevice(BluetoothDevice)`: null is invalid,
otherwise the address must pass `checkBluetoothAddress`. -/
def isValidDevice (device : Option BluetoothDevice) : Bool :=
  match device with
  | none => false
  | some d => if checkBluetoothAddress d.getAddress then true else false

/-- Modelled from the spec: what the forwarding path observes for one
call, i.e. the combined behaviour of the remote service and
`SynchronousResultReceiver.awaitResultNoInterrupt(timeout).getValue(default)`:
a received value, a missing value (``getValue`` falls back to the
default), a `RemoteException`, or a `TimeoutException`. -/
inductive CallResult (α : Type) where
  | value : α → CallResult α
  | noValue : CallResult α
  | remoteException : CallResult α
  | timeoutException : CallResult α
deriving DecidableEq

/-- One call forwarded to the `IBluetoothHapClient` service, with the
arguments exactly as passed at the call site (the trailing
`SynchronousResultReceiver` argument is the oracle and is not
recorded). -/
inductive ServiceCall where
  | setConnectionPolicy (device : Option BluetoothDevice)
      (connectionPolicy : Int) (attributionSource : Nat)
  | getConnectionPolicy (device : Option BluetoothDevice)
      (attributionSource : Nat)
  | getConnectedDevices (attributionSource : Nat)
  | getDevicesMatchingConnectionStates (states : List Int)
      (attributionSource : Nat)
  | getConnectionState (device : Option BluetoothDevice)
      (attributionSource : Nat)
  | getHapGroup (device : Option BluetoothDevice) (attributionSource : Nat)
  | getActivePresetIndex (device : Option BluetoothDevice)
      (attributionSource : Nat)
  | selectActivePreset (device : Option BluetoothDevice) (presetIndex : Int)
      (attributionSource : Nat)
  | groupSelectActivePreset (groupId : Int) (presetIndex : Int)
      (attributionSource : Nat)
  | nextActivePreset (device : Option BluetoothDevice)
      (attributionSource : Nat)
  | groupNextActivePreset (groupId : Int) (attributionSource : Nat)
  | previousActivePreset (device : Option BluetoothDevice)
      (attributionSource : Nat)
  | groupPreviousActivePreset (groupId : Int) (attributionSource : Nat)
  | getPresetInfo (device : Option BluetoothDevice) (presetIndex : Int)
      (attributionSource : Nat)
  | getAllPresetsInfo (device : Option BluetoothDevice)
      (attributionSource : Nat)
  | getFeatures (device : Option BluetoothDevice) (attributionSource : Nat)
  | setPresetName (device : Option BluetoothDevice) (presetIndex : Int)
      (name : String) (attributionSource : Nat)
  | groupSetPresetName (groupId : Int) (presetIndex : Int) (name : String)
      (attributionSource : Nat)
deriving DecidableEq

/-- `recv.awaitResultNoInterrupt(getSyncTimeout()).getValue(defaultValue)`
inside the try block: a received value is returned as is; no value means
`getValue` substitutes the default; either exception is caught by the
enclosing `catch (RemoteException | TimeoutException e)` and the method
falls through to `return defaultValue`. -/
def awaitGetValue {α : Type} (defaultValue : α) (recv : CallResult α) : α :=
  match recv with
  | CallResult.value v => v
  | CallResult.noValue => defaultValue
  | CallResult.remoteException => defaultValue
  | CallResult.timeoutException => defaultValue

/-- The literal shape shared by every public proxy method in the source:
if `getService()` returned null, skip and return the default; else if
the guard holds, forward the call and await the result, catching the
two exceptions into the default; else return the default.  Returns
(result, fields after the call, calls forwarded to the service). -/
def proxyCall {α : Type} (c : ClientState) (service : Option Unit)
    (defaultValue : α) (guard : Bool) (call : ServiceCall)
    (recv : CallResult α) : α × ClientState × List ServiceCall :=
  match service with
  | none => (defaultValue, c, [])
  | some _ =>
    if guard then (awaitGetValue defaultValue recv, c, [call])
    else (defaultValue, c, [])

/-! ### The public proxy methods

Each definition is the corresponding Java method with its own default
value, its own guard expression (read off the source: note that
`setConnectionPolicy` and `getConnectionPolicy` call
`mAdapter.isEnabled()` where the other methods call the private
`isEnabled()`, and that `setConnectionPolicy` additionally restricts
the policy value), and its own forwarded call. -/

def setConnectionPolicy (c : ClientState) (service : Option Unit)
    (device : Option BluetoothDevice) (connectionPolicy : Int)
    (recv : CallResult Bool) : Bool × ClientState × List ServiceCall :=
  proxyCall c service false
    (c.mAdapter.isEnabled && isValidDevice device
      && (connectionPolicy == CONNECTION_POLICY_FORBIDDEN
          || connectionPolicy == CONNECTION_POLICY_ALLOWED))
    (ServiceCall.setConnectionPolicy device connectionPolicy
      c.mAttributionSource) recv

def getConnectionPolicy (c : ClientState) (service : Option Unit)
    (device : Option BluetoothDevice) (recv : CallResult Int) :
    Int × ClientState × List ServiceCall :=
  proxyCall c service CONNECTION_POLICY_FORBIDDEN
    (c.mAdapter.isEnabled && isValidDevice device)
    (ServiceCall.getConnectionPolicy device c.mAttributionSource) recv

def getConnectedDevices (c : ClientState) (service : Option Unit)
    (recv : CallResult (List BluetoothDevice)) :
    List BluetoothDevice × ClientState × List ServiceCall :=
  proxyCall c service [] (isEnabled c)
    (ServiceCall.getConnectedDevices c.mAttributionSource) recv

def getDevicesMatchingConnectionStates (c : ClientState)
    (service : Option Unit) (states : List Int)
    (recv : CallResult (List BluetoothDevice)) :
    List BluetoothDevice × ClientState × List ServiceCall :=
  proxyCall c service [] (isEnabled c)
    (ServiceCall.getDevicesMatchingConnectionStates states
      c.mAttributionSource) recv

def getConnectionState (c : ClientState) (service : Option Unit)
    (device : Option BluetoothDevice) (recv : CallResult Int) :
    Int × ClientState × List ServiceCall :=
  proxyCall c service STATE_DISCONNECTED
    (isEnabled c && isValidDevice device)
    (ServiceCall.getConnectionState device c.mAttributionSource) recv

def getHapGroup (c : ClientState) (service : Option Unit)
    (device : Option BluetoothDevice) (recv : CallResult Int) :
    Int × ClientState × List ServiceCall :=
  proxyCall c service HAP_GROUP_UNAVAILABLE
    (isEnabled c && isValidDevice device)
    (ServiceCall.getHapGroup device c.mAttributionSource) recv

def getActivePresetIndex (c : ClientState) (service : Option Unit)
    (device : Option BluetoothDevice) (recv : CallResult Bool) :
    Bool × ClientState × List ServiceCall :=
  proxyCall c service false (isEnabled c && isValidDevice device)
    (ServiceCall.getActivePresetIndex device c.mAttributionSource) recv

def selectActivePreset (c : ClientState) (service : Option Unit)
    (device : Option BluetoothDevice) (presetIndex : Int)
    (recv : CallResult Bool) : Bool × ClientState × List ServiceCall :=
  proxyCall c service false (isEnabled c && isValidDevice device)
    (ServiceCall.selectActivePreset device presetIndex
      c.mAttributionSource) recv

def groupSelectActivePreset (c : ClientState) (service : Option Unit)
    (groupId : Int) (presetIndex : Int) (recv : CallResult Bool) :
    Bool × ClientState × List ServiceCall :=
  proxyCall c service false (isEnabled c)
    (ServiceCall.groupSelectActivePreset groupId presetIndex
      c.mAttributionSource) recv

def nextActivePreset (c : ClientState) (service : Option Unit)
    (device : Option BluetoothDevice) (recv : CallResult Bool) :
    Bool × ClientState × List ServiceCall :=
  proxyCall c service false (isEnabled c && isValidDevice device)
    (ServiceCall.nextActivePreset device c.mAttributionSource) recv

def groupNextActivePreset (c : ClientState) (service : Option Unit)
    (groupId : Int) (recv : CallResult Bool) :
    Bool × ClientState × List ServiceCall :=
  proxyCall c service false (isEnabled c)
    (ServiceCall.groupNextActivePreset groupId c.mAttributionSource) recv

def previousActivePreset (c : ClientState) (service : Option Unit)
    (device : Option BluetoothDevice) (recv : CallResult Bool) :
    Bool × ClientState × List ServiceCall :=
  proxyCall c service false (isEnabled c && isValidDevice device)
    (ServiceCall.previousActivePreset device c.mAttributionSource) recv

def groupPreviousActivePreset (c : ClientState) (service : Option Unit)
    (groupId : Int) (recv : CallResult Bool) :
    Bool × ClientState × List ServiceCall :=
  proxyCall c service false (isEnabled c)
    (ServiceCall.groupPreviousActivePreset groupId c.mAttributionSource) recv

def getPresetInfo (c : ClientState) (service : Option Unit)
    (device : Option BluetoothDevice) (presetIndex : Int)
    (recv : CallResult Bool) : Bool × ClientState × List ServiceCall :=
  proxyCall c service false (isEnabled c && isValidDevice device)
    (ServiceCall.getPresetInfo device presetIndex c.mAttributionSource) recv

def getAllPresetsInfo (c : ClientState) (service : Option Unit)
    (device : Option BluetoothDevice) (recv : CallResult Bool) :
    Bool × ClientState × List ServiceCall :=
  proxyCall c service false (isEnabled c && isValidDevice device)
    (ServiceCall.getAllPresetsInfo device c.mAttributionSource) recv

def getFeatures (c : ClientState) (service : Option Unit)
    (device : Option BluetoothDevice) (recv : CallResult Bool) :
    Bool × ClientState × List ServiceCall :=
  proxyCall c service false (isEnabled c && isValidDevice device)
    (ServiceCall.getFeatures device c.mAttributionSource) recv

def setPresetName (c : ClientState) (service : Option Unit)
    (device : Option BluetoothDevice) (presetIndex : Int) (name : String)
    (recv : CallResult Bool) : Bool × ClientState × List ServiceCall :=
  proxyCall c service false (isEnabled c && isValidDevice device)
    (ServiceCall.setPresetName device presetIndex name
      c.mAttributionSource) recv

def groupSetPresetName (c : ClientState) (service : Option Unit)
    (groupId : Int) (presetIndex : Int) (name : String)
    (recv : CallResult Bool) : Bool × ClientState × List ServiceCall :=
  proxyCall c service false (isEnabled c)
    (ServiceCall.groupSetPresetName groupId presetIndex name
      c.mAttributionSource) recv

/-! ### Concrete sample values used by witnesses -/

/-- A well-formed Bluetooth address. -/
def sampleAddress : String := "00:11:22:AA:BB:CC"

/-- A device with a valid address. -/
def sampleDevice : BluetoothDevice := { address := some sampleAddress }

/-- A malformed address. -/
def badAddress : String := "not-an-address"

/-- A device with an invalid address. -/
def badDevice : BluetoothDevice := { address := some badAddress }

/-- A proxy whose adapter is on. -/
def sampleClient : ClientState :=
  { mAdapter := { state := STATE_ON }
    mAttributionSource := 7
    mProfileConnector := 1
    mCloseGuardOpen := true }

/-- A proxy whose adapter is off (state 10, `STATE_OFF`). -/
def offClient : ClientState :=
  { mAdapter := { state := 10 }
    mAttributionSource := 7
    mProfileConnector := 1
    mCloseGuardOpen := true }

/-! ### Helper lemmas about the shared method shape -/

/-- A null service proxy short-circuits to the default with no call. -/
theorem proxyCall_none {α : Type} {c : ClientState} {d : α} {g : Bool}
    {call : ServiceCall} {o : CallResult α} :
    proxyCall c none d g call o = (d, c, []) := rfl

/-- A false guard short-circuits to the default with no call, whatever
the service reference is. -/
theorem proxyCall_guard_eq_false {α : Type} {c : ClientState}
    {s : Option Unit} {d : α} {g : Bool} {call : ServiceCall}
    {o : CallResult α} (h : g = false) :
    proxyCall c s d g call o = (d, c, []) := by
  subst h
  cases s with
  | none => rfl
  | some u => rfl

/-- An attached service and a true guard forward exactly the one call
and return the awaited value. -/
theorem proxyCall_guard_eq_true {α : Type} {c : ClientState} {d : α}
    {g : Bool} {call : ServiceCall} {o : CallResult α} (h : g = true) :
    proxyCall c (some ()) d g call o = (awaitGetValue d o, c, [call]) := by
  subst h
  rfl

/-- No branch of the shared shape touches the proxy fields. -/
theorem proxyCall_state {α : Type} {c : ClientState} {s : Option Unit}
    {d : α} {g : Bool} {call : ServiceCall} {o : CallResult α} :
    (proxyCall c s d g call o).2.1 = c := by
  cases s with
  | none => rfl
  | some u => cases g with
    | false => rfl
    | true => rfl

/-- The returned value is the local default or the received value. -/
theorem proxyCall_fst_default_or_value {α : Type} {c : ClientState}
    {s : Option Unit} {d : α} {g : Bool} {call : ServiceCall}
    {o : CallResult α} :
    (proxyCall c s d g call o).1 = d ∨
      o = CallResult.value ((proxyCall c s d g call o).1) := by
  cases s with
  | none => exact Or.inl rfl
  | some u => cases g with
    | false => exact Or.inl rfl
    | true => cases o with
      | value v => exact Or.inr rfl
      | noValue => exact Or.inl rfl
      | remoteException => exact Or.inl rfl
      | timeoutException => exact Or.inl rfl

/-- When the forwarding path raises either caught exception, the method
returns the default. -/
theorem proxyCall_fst_exn {α : Type} {c : ClientState} {s : Option Unit}
    {d : α} {g : Bool} {call : ServiceCall} {o : CallResult α}
    (h : o = CallResult.remoteException ∨ o = CallResult.timeoutException) :
    (proxyCall c s d g call o).1 = d := by
  cases s with
  | none => rfl
  | some u => cases g with
    | false => rfl
    | true =>
      rcases h with h | h
      · subst h; rfl
      · subst h; rfl

/-- With an attached service and a true guard, exactly the one call is
forwarded. -/
theorem proxyCall_calls_of_guard_true {α : Type} {c : ClientState}
    {d : α} {g : Bool} {call : ServiceCall} {o : CallResult α}
    (h : g = true) :
    (proxyCall c (some ()) d g call o).2.2 = [call] := by
  subst h
  rfl

/-- The private `isEnabled()` agrees with `mAdapter.isEnabled()`. -/
theorem isEnabled_eq (c : ClientState) :
    isEnabled c = c.mAdapter.isEnabled := by
  unfold isEnabled BluetoothAdapter.isEnabled BluetoothAdapter.getState
  cases h : (c.mAdapter.state == STATE_ON) <;> simp [h]

/-- Claim C1: for every public `BluetoothHapClient` operation, if the
binder service proxy is null, or the adapter is not enabled, or (for
device-taking operations) the device fails validation, the operation
does not forward any call and returns its per-method default: `false`
for the boolean operations, `CONNECTION_POLICY_FORBIDDEN` for
`getConnectionPolicy`, `STATE_DISCONNECTED` for `getConnectionState`,
an empty list for `getConnectedDevices` and
`getDevicesMatchingConnectionStates`, `HAP_GROUP_UNAVAILABLE` for
`getHapGroup`.  The twelve device-taking operations default under the
three-way disjunction (in particular with only an invalid device, the
service attached and the adapter on); the six operations that take no
device default under the null-service/adapter-off disjunction, stated
as the trailing implication. -/
theorem hap_C1_guard_failure_returns_default
    (c : ClientState) (service : Option Unit)
    (device : Option BluetoothDevice)
    (connectionPolicy groupId presetIndex : Int) (states : List Int)
    (name : String) (ob : CallResult Bool) (oi : CallResult Int)
    (ol : CallResult (List BluetoothDevice))
    (hdev : service = none ∨ isEnabled c = false ∨
      isValidDevice device = false) :
    setConnectionPolicy c service device connectionPolicy ob
      = (false, c, []) ∧
    getConnectionPolicy c service device oi
      = (CONNECTION_POLICY_FORBIDDEN, c, []) ∧
    getConnectionState c service device oi = (STATE_DISCONNECTED, c, []) ∧
    getHapGroup c service device oi = (HAP_GROUP_UNAVAILABLE, c, []) ∧
    getActivePresetIndex c service device ob = (false, c, []) ∧
    selectActivePreset c service device presetIndex ob = (false, c, []) ∧
    nextActivePreset c service device ob = (false, c, []) ∧
    previousActivePreset c service device ob = (false, c, []) ∧
    getPresetInfo c service device presetIndex ob = (false, c, []) ∧
    getAllPresetsInfo c service device ob = (false, c, []) ∧
    getFeatures c service device ob = (false, c, []) ∧
    setPresetName c service device presetIndex name ob = (false, c, []) ∧
    (service = none ∨ isEnabled c = false →
      getConnectedDevices c service ol = ([], c, []) ∧
      getDevicesMatchingConnectionStates c service states ol
        = ([], c, []) ∧
      groupSelectActivePreset c service groupId presetIndex ob
        = (false, c, []) ∧
      groupNextActivePreset c service groupId ob = (false, c, []) ∧
      groupPreviousActivePreset c service groupId ob = (false, c, []) ∧
      groupSetPresetName c service groupId presetIndex name ob
        = (false, c, [])) := by
  have hglob : ∀ hg : service = none ∨ isEnabled c = false,
      getConnectedDevices c service ol = ([], c, []) ∧
      getDevicesMatchingConnectionStates c service states ol
        = ([], c, []) ∧
      groupSelectActivePreset c service groupId presetIndex ob
        = (false, c, []) ∧
      groupNextActivePreset c service groupId ob = (false, c, []) ∧
      groupPreviousActivePreset c service groupId ob = (false, c, []) ∧
      groupSetPresetName c service groupId presetIndex name ob
        = (false, c, []) := by
    intro hg
    rcases hg with hs | he
    · subst hs
      exact ⟨rfl, rfl, rfl, rfl, rfl, rfl⟩
    · refine ⟨?_, ?_, ?_, ?_, ?_, ?_⟩ <;>
        exact proxyCall_guard_eq_false he
  rcases hdev with hs | he | hv
  · subst hs
    exact ⟨rfl, rfl, rfl, rfl, rfl, rfl, rfl, rfl, rfl, rfl, rfl, rfl,
      fun _ => hglob (Or.inl rfl)⟩
  · have he' : c.mAdapter.isEnabled = false := by
      rw [← isEnabled_eq]; exact he
    refine ⟨?_, ?_, ?_, ?_, ?_, ?_, ?_, ?_, ?_, ?_, ?_, ?_,
      fun _ => hglob (Or.inr he)⟩ <;>
      · apply proxyCall_guard_eq_false
        simp [he, he']
  · refine ⟨?_, ?_, ?_, ?_, ?_, ?_, ?_, ?_, ?_, ?_, ?_, ?_,
      fun hg => hglob hg⟩ <;>
      · apply proxyCall_guard_eq_false
        simp [hv]

/-- Claim C1 witness: concrete evaluation in the case the claim singles
out for device-taking operations: the service is attached and the
adapter is on, but the device fails validation (malformed address and
null), and the operations still default without forwarding. -/
theorem hap_C1_guard_failure_returns_default_witness :
    getHapGroup sampleClient (some ()) (some badDevice)
      (CallResult.value 3) = (HAP_GROUP_UNAVAILABLE, sampleClient, []) ∧
    getConnectionState sampleClient (some ()) none
      (CallResult.value 2) = (STATE_DISCONNECTED, sampleClient, []) ∧
    getConnectedDevices offClient none CallResult.noValue
      = ([], offClient, []) :=
  ⟨(hap_C1_guard_failure_returns_default sampleClient (some ())
      (some badDevice) 0 1 2 [0] sampleAddress (CallResult.value true)
      (CallResult.value 3) CallResult.noValue
      (Or.inr (Or.inr (by decide)))).2.2.2.1,
   (hap_C1_guard_failure_returns_default sampleClient (some ())
      none 0 1 2 [0] sampleAddress (CallResult.value true)
      (CallResult.value 2) CallResult.noValue
      (Or.inr (Or.inr (by decide)))).2.2.1,
   ((hap_C1_guard_failure_returns_default offClient none
      (some sampleDevice) 0 1 2 [0] sampleAddress (CallResult.value true)
      (CallResult.value 2) CallResult.noValue
      (Or.inl rfl)).2.2.2.2.2.2.2.2.2.2.2.2 (Or.inl rfl)).1⟩

/-- Claim C2: for every public `BluetoothHapClient` operation that
forwards a call, if the forwarded call raises `RemoteException` or the
bounded-time await raises `TimeoutException`, the exception is caught
inside the method and the method returns its per-method default; no
exception from the forwarding path propagates (in this embedding every
method is a total function, and on an exceptional observation its value
is the default, in any proxy state whatsoever). -/
theorem hap_C2_exception_caught_returns_default
    (c : ClientState) (service : Option Unit)
    (device : Option BluetoothDevice)
    (connectionPolicy groupId presetIndex : Int) (states : List Int)
    (name : String) (ob : CallResult Bool) (oi : CallResult Int)
    (ol : CallResult (List BluetoothDevice))
    (hb : ob = CallResult.remoteException ∨
      ob = CallResult.timeoutException)
    (hi : oi = CallResult.remoteException ∨
      oi = CallResult.timeoutException)
    (hl : ol = CallResult.remoteException ∨
      ol = CallResult.timeoutException) :
    (setConnectionPolicy c service device connectionPolicy ob).1 = false ∧
    (getConnectionPolicy c service device oi).1
      = CONNECTION_POLICY_FORBIDDEN ∧
    (getConnectedDevices c service ol).1 = [] ∧
    (getDevicesMatchingConnectionStates c service states ol).1 = [] ∧
    (getConnectionState c service device oi).1 = STATE_DISCONNECTED ∧
    (getHapGroup c service device oi).1 = HAP_GROUP_UNAVAILABLE ∧
    (getActivePresetIndex c service device ob).1 = false ∧
    (selectActivePreset c service device presetIndex ob).1 = false ∧
    (groupSelectActivePreset c service groupId presetIndex ob).1
      = false ∧
    (nextActivePreset c service device ob).1 = false ∧
    (groupNextActivePreset c service groupId ob).1 = false ∧
    (previousActivePreset c service device ob).1 = false ∧
    (groupPreviousActivePreset c service groupId ob).1 = false ∧
    (getPresetInfo c service device presetIndex ob).1 = false ∧
    (getAllPresetsInfo c service device ob).1 = false ∧
    (getFeatures c service device ob).1 = false ∧
    (setPresetName c service device presetIndex name ob).1 = false ∧
    (groupSetPresetName c service groupId presetIndex name ob).1
      = false :=
  ⟨proxyCall_fst_exn hb, proxyCall_fst_exn hi, proxyCall_fst_exn hl,
   proxyCall_fst_exn hl, proxyCall_fst_exn hi, proxyCall_fst_exn hi,
   proxyCall_fst_exn hb, proxyCall_fst_exn hb, proxyCall_fst_exn hb,
   proxyCall_fst_exn hb, proxyCall_fst_exn hb, proxyCall_fst_exn hb,
   proxyCall_fst_exn hb, proxyCall_fst_exn hb, proxyCall_fst_exn hb,
   proxyCall_fst_exn hb, proxyCall_fst_exn hb, proxyCall_fst_exn hb⟩

/-- Claim C2 witness: concrete evaluation with the service attached,
the adapter on, a valid device, and a timed-out await. -/
theorem hap_C2_exception_caught_returns_default_witness :
    (getConnectionState sampleClient (some ()) (some sampleDevice)
      CallResult.timeoutException).1 = STATE_DISCONNECTED :=
  (hap_C2_exception_caught_returns_default sampleClient (some ())
    (some sampleDevice) 100 1 2 [0] sampleAddress
    CallResult.remoteException CallResult.timeoutException
    CallResult.timeoutException (Or.inl rfl) (Or.inr rfl)
    (Or.inr rfl)).2.2.2.2.1

/-- Claim C3 counterexample: the claim says that once the service is
attached, the adapter is on and the device is valid, every operation
forwards for every argument value.  `setConnectionPolicy` refutes it:
with the service attached, the adapter on and a valid device, passing
`CONNECTION_POLICY_UNKNOWN` forwards nothing and returns `false`. -/
theorem hap_C3_counterexample :
    isEnabled sampleClient = true ∧
    isValidDevice (some sampleDevice) = true ∧
    setConnectionPolicy sampleClient (some ()) (some sampleDevice)
      CONNECTION_POLICY_UNKNOWN (CallResult.value true)
      = (false, sampleClient, []) := by
  refine ⟨rfl, ?_, ?_⟩ <;> decide

/-- Claim C3 as amended: once the service is attached, the adapter is
on, and the device (when the operation takes one) is valid, every
operation except `setConnectionPolicy` forwards its arguments to the
service unconditionally; `setConnectionPolicy` additionally requires
the connection policy to be `CONNECTION_POLICY_FORBIDDEN` or
`CONNECTION_POLICY_ALLOWED`, and forwards nothing otherwise. -/
theorem hap_C3_amended_forwarding
    (c : ClientState) (device : Option BluetoothDevice)
    (connectionPolicy groupId presetIndex : Int) (states : List Int)
    (name : String) (ob : CallResult Bool) (oi : CallResult Int)
    (ol : CallResult (List BluetoothDevice))
    (he : isEnabled c = true) (hd : isValidDevice device = true) :
    (getConnectionPolicy c (some ()) device oi).2.2
      = [ServiceCall.getConnectionPolicy device c.mAttributionSource] ∧
    (getConnectedDevices c (some ()) ol).2.2
      = [ServiceCall.getConnectedDevices c.mAttributionSource] ∧
    (getDevicesMatchingConnectionStates c (some ()) states ol).2.2
      = [ServiceCall.getDevicesMatchingConnectionStates states
          c.mAttributionSource] ∧
    (getConnectionState c (some ()) device oi).2.2
      = [ServiceCall.getConnectionState device c.mAttributionSource] ∧
    (getHapGroup c (some ()) device oi).2.2
      = [ServiceCall.getHapGroup device c.mAttributionSource] ∧
    (getActivePresetIndex c (some ()) device ob).2.2
      = [ServiceCall.getActivePresetIndex device c.mAttributionSource] ∧
    (selectActivePreset c (some ()) device presetIndex ob).2.2
      = [ServiceCall.selectActivePreset device presetIndex
          c.mAttributionSource] ∧
    (groupSelectActivePreset c (some ()) groupId presetIndex ob).2.2
      = [ServiceCall.groupSelectActivePreset groupId presetIndex
          c.mAttributionSource] ∧
    (nextActivePreset c (some ()) device ob).2.2
      = [ServiceCall.nextActivePreset device c.mAttributionSource] ∧
    (groupNextActivePreset c (some ()) groupId ob).2.2
      = [ServiceCall.groupNextActivePreset groupId
          c.mAttributionSource] ∧
    (previousActivePreset c (some ()) device ob).2.2
      = [ServiceCall.previousActivePreset device c.mAttributionSource] ∧
    (groupPreviousActivePreset c (some ()) groupId ob).2.2
      = [ServiceCall.groupPreviousActivePreset groupId
          c.mAttributionSource] ∧
    (getPresetInfo c (some ()) device presetIndex ob).2.2
      = [ServiceCall.getPresetInfo device presetIndex
          c.mAttributionSource] ∧
    (getAllPresetsInfo c (some ()) device ob).2.2
      = [ServiceCall.getAllPresetsInfo device c.mAttributionSource] ∧
    (getFeatures c (some ()) device ob).2.2
      = [ServiceCall.getFeatures device c.mAttributionSource] ∧
    (setPresetName c (some ()) device presetIndex name ob).2.2
      = [ServiceCall.setPresetName device presetIndex name
          c.mAttributionSource] ∧
    (groupSetPresetName c (some ()) groupId presetIndex name ob).2.2
      = [ServiceCall.groupSetPresetName groupId presetIndex name
          c.mAttributionSource] ∧
    ((connectionPolicy = CONNECTION_POLICY_FORBIDDEN ∨
        connectionPolicy = CONNECTION_POLICY_ALLOWED) →
      (setConnectionPolicy c (some ()) device connectionPolicy ob).2.2
        = [ServiceCall.setConnectionPolicy device connectionPolicy
            c.mAttributionSource]) ∧
    (connectionPolicy ≠ CONNECTION_POLICY_FORBIDDEN →
      connectionPolicy ≠ CONNECTION_POLICY_ALLOWED →
      (setConnectionPolicy c (some ()) device connectionPolicy ob).2.2
        = []) := by
  have he' : c.mAdapter.isEnabled = true := by
    rw [← isEnabled_eq]; exact he
  refine ⟨?_, ?_, ?_, ?_, ?_, ?_, ?_, ?_, ?_, ?_, ?_, ?_, ?_, ?_, ?_,
    ?_, ?_, ?_, ?_⟩
  case _ => exact proxyCall_calls_of_guard_true (by simp [he', hd])
  case _ => exact proxyCall_calls_of_guard_true he
  case _ => exact proxyCall_calls_of_guard_true he
  case _ => exact proxyCall_calls_of_guard_true (by simp [he, hd])
  case _ => exact proxyCall_calls_of_guard_true (by simp [he, hd])
  case _ => exact proxyCall_calls_of_guard_true (by simp [he, hd])
  case _ => exact proxyCall_calls_of_guard_true (by simp [he, hd])
  case _ => exact proxyCall_calls_of_guard_true he
  case _ => exact proxyCall_calls_of_guard_true (by simp [he, hd])
  case _ => exact proxyCall_calls_of_guard_true he
  case _ => exact proxyCall_calls_of_guard_true (by simp [he, hd])
  case _ => exact proxyCall_calls_of_guard_true he
  case _ => exact proxyCall_calls_of_guard_true (by simp [he, hd])
  case _ => exact proxyCall_calls_of_guard_true (by simp [he, hd])
  case _ => exact proxyCall_calls_of_guard_true (by simp [he, hd])
  case _ => exact proxyCall_calls_of_guard_true (by simp [he, hd])
  case _ => exact proxyCall_calls_of_guard_true he
  case _ =>
    intro hp
    refine proxyCall_calls_of_guard_true ?_
    rcases hp with hp | hp <;> subst hp <;> simp [he', hd]
  case _ =>
    intro hp1 hp2
    have hg : (c.mAdapter.isEnabled && isValidDevice device
        && (connectionPolicy == CONNECTION_POLICY_FORBIDDEN
            || connectionPolicy == CONNECTION_POLICY_ALLOWED)) = false := by
      simp [hp1, hp2]
    rw [setConnectionPolicy, proxyCall_guard_eq_false hg]

/-- Claim C3 amended witness: concrete evaluation with the service
attached, the adapter on and a valid device. -/
theorem hap_C3_amended_forwarding_witness :
    (selectActivePreset sampleClient (some ()) (some sampleDevice) 5
      (CallResult.value true)).2.2
      = [ServiceCall.selectActivePreset (some sampleDevice) 5
          sampleClient.mAttributionSource] :=
  (hap_C3_amended_forwarding sampleClient (some sampleDevice)
    CONNECTION_POLICY_ALLOWED 1 5 [0] sampleAddress
    (CallResult.value true) (CallResult.value 0) CallResult.noValue
    (by decide) (by decide)).2.2.2.2.2.2.1

/-- Claim C4: for every integer `presetIndex`, including values outside
the implied 0 to 255 range, `selectActivePreset`, `getPresetInfo`,
`setPresetName`, `groupSelectActivePreset` and `groupSetPresetName`
forward the index to the service unchanged: there is no range check,
clamping or rejection of the preset index, only the service-null,
adapter-enabled and (where a device is taken) device-validity guards
that apply to every argument value alike. -/
theorem hap_C4_presetIndex_forwarded_unchanged
    (c : ClientState) (device : Option BluetoothDevice)
    (groupId presetIndex : Int) (name : String) (ob : CallResult Bool)
    (he : isEnabled c = true) (hd : isValidDevice device = true) :
    (selectActivePreset c (some ()) device presetIndex ob).2.2
      = [ServiceCall.selectActivePreset device presetIndex
          c.mAttributionSource] ∧
    (getPresetInfo c (some ()) device presetIndex ob).2.2
      = [ServiceCall.getPresetInfo device presetIndex
          c.mAttributionSource] ∧
    (setPresetName c (some ()) device presetIndex name ob).2.2
      = [ServiceCall.setPresetName device presetIndex name
          c.mAttributionSource] ∧
    (groupSelectActivePreset c (some ()) groupId presetIndex ob).2.2
      = [ServiceCall.groupSelectActivePreset groupId presetIndex
          c.mAttributionSource] ∧
    (groupSetPresetName c (some ()) groupId presetIndex name ob).2.2
      = [ServiceCall.groupSetPresetName groupId presetIndex name
          c.mAttributionSource] :=
  ⟨proxyCall_calls_of_guard_true (by simp [he, hd]),
   proxyCall_calls_of_guard_true (by simp [he, hd]),
   proxyCall_calls_of_guard_true (by simp [he, hd]),
   proxyCall_calls_of_guard_true he,
   proxyCall_calls_of_guard_true he⟩

/-- Claim C4 witness: concrete evaluation at preset index 300, outside
the implied 0 to 255 range, and at -5. -/
theorem hap_C4_presetIndex_forwarded_unchanged_witness :
    (selectActivePreset sampleClient (some ()) (some sampleDevice) 300
      (CallResult.value true)).2.2
      = [ServiceCall.selectActivePreset (some sampleDevice) 300
          sampleClient.mAttributionSource] ∧
    (groupSetPresetName sampleClient (some ()) 1 (-5) sampleAddress
      (CallResult.value true)).2.2
      = [ServiceCall.groupSetPresetName 1 (-5) sampleAddress
          sampleClient.mAttributionSource] :=
  ⟨(hap_C4_presetIndex_forwarded_unchanged sampleClient
      (some sampleDevice) 1 300 sampleAddress (CallResult.value true)
      (by decide) (by decide)).1,
   (hap_C4_presetIndex_forwarded_unchanged sampleClient
      (some sampleDevice) 1 (-5) sampleAddress (CallResult.value true)
      (by decide) (by decide)).2.2.2.2⟩

/-- Claim C5: `SecurityModuleFacadeModule::ListDependencies` adds
exactly `SecurityModule`, `L2capLeModule`, `L2capClassicModule` and
`HciLayer`, in that order, on top of whatever the base
`GrpcFacadeModule::ListDependencies` added to the list. -/
theorem facade_C5_list_dependencies
    (grpcFacadeModuleListDependencies : ModuleList → ModuleList)
    (list : ModuleList) :
    SecurityModuleFacadeModule.ListDependencies
        grpcFacadeModuleListDependencies list
      = grpcFacadeModuleListDependencies list
          ++ [GdModule.SecurityModule, GdModule.L2capLeModule,
              GdModule.L2capClassicModule, GdModule.HciLayer] := by
  simp [SecurityModuleFacadeModule.ListDependencies, ModuleList.add]

/-- Claim C6: no public `BluetoothHapClient` operation mutates
client-side state: for every operation and every input, the proxy
fields (`mAdapter`, `mAttributionSource`, `mProfileConnector`, the
close guard) after the call equal the fields before it, and the
returned value is either the locally-defined default constant of that
method or the value received from the remote service. -/
theorem hap_C6_no_mutation_result_provenance
    (c : ClientState) (service : Option Unit)
    (device : Option BluetoothDevice)
    (connectionPolicy groupId presetIndex : Int) (states : List Int)
    (name : String) (ob : CallResult Bool) (oi : CallResult Int)
    (ol : CallResult (List BluetoothDevice)) :
    ((setConnectionPolicy c service device connectionPolicy ob).2.1 = c ∧
      ((setConnectionPolicy c service device connectionPolicy ob).1
          = false ∨
        ob = CallResult.value
          ((setConnectionPolicy c service device connectionPolicy ob).1))) ∧
    ((getConnectionPolicy c service device oi).2.1 = c ∧
      ((getConnectionPolicy c service device oi).1
          = CONNECTION_POLICY_FORBIDDEN ∨
        oi = CallResult.value ((getConnectionPolicy c service device oi).1))) ∧
    ((getConnectedDevices c service ol).2.1 = c ∧
      ((getConnectedDevices c service ol).1 = [] ∨
        ol = CallResult.value ((getConnectedDevices c service ol).1))) ∧
    ((getDevicesMatchingConnectionStates c service states ol).2.1 = c ∧
      ((getDevicesMatchingConnectionStates c service states ol).1 = [] ∨
        ol = CallResult.value
          ((getDevicesMatchingConnectionStates c service states ol).1))) ∧
    ((getConnectionState c service device oi).2.1 = c ∧
      ((getConnectionState c service device oi).1 = STATE_DISCONNECTED ∨
        oi = CallResult.value ((getConnectionState c service device oi).1))) ∧
    ((getHapGroup c service device oi).2.1 = c ∧
      ((getHapGroup c service device oi).1 = HAP_GROUP_UNAVAILABLE ∨
        oi = CallResult.value ((getHapGroup c service device oi).1))) ∧
    ((getActivePresetIndex c service device ob).2.1 = c ∧
      ((getActivePresetIndex c service device ob).1 = false ∨
        ob = CallResult.value ((getActivePresetIndex c service device ob).1))) ∧
    ((selectActivePreset c service device presetIndex ob).2.1 = c ∧
      ((selectActivePreset c service device presetIndex ob).1 = false ∨
        ob = CallResult.value
          ((selectActivePreset c service device presetIndex ob).1))) ∧
    ((groupSelectActivePreset c service groupId presetIndex ob).2.1 = c ∧
      ((groupSelectActivePreset c service groupId presetIndex ob).1
          = false ∨
        ob = CallResult.value
          ((groupSelectActivePreset c service groupId presetIndex ob).1))) ∧
    ((nextActivePreset c service device ob).2.1 = c ∧
      ((nextActivePreset c service device ob).1 = false ∨
        ob = CallResult.value ((nextActivePreset c service device ob).1))) ∧
    ((groupNextActivePreset c service groupId ob).2.1 = c ∧
      ((groupNextActivePreset c service groupId ob).1 = false ∨
        ob = CallResult.value ((groupNextActivePreset c service groupId ob).1))) ∧
    ((previousActivePreset c service device ob).2.1 = c ∧
      ((previousActivePreset c service device ob).1 = false ∨
        ob = CallResult.value ((previousActivePreset c service device ob).1))) ∧
    ((groupPreviousActivePreset c service groupId ob).2.1 = c ∧
      ((groupPreviousActivePreset c service groupId ob).1 = false ∨
        ob = CallResult.value
          ((groupPreviousActivePreset c service groupId ob).1))) ∧
    ((getPresetInfo c service device presetIndex ob).2.1 = c ∧
      ((getPresetInfo c service device presetIndex ob).1 = false ∨
        ob = CallResult.value
          ((getPresetInfo c service device presetIndex ob).1))) ∧
    ((getAllPresetsInfo c service device ob).2.1 = c ∧
      ((getAllPresetsInfo c service device ob).1 = false ∨
        ob = CallResult.value ((getAllPresetsInfo c service device ob).1))) ∧
    ((getFeatures c service device ob).2.1 = c ∧
      ((getFeatures c service device ob).1 = false ∨
        ob = CallResult.value ((getFeatures c service device ob).1))) ∧
    ((setPresetName c service device presetIndex name ob).2.1 = c ∧
      ((setPresetName c service device presetIndex name ob).1 = false ∨
        ob = CallResult.value
          ((setPresetName c service device presetIndex name ob).1))) ∧
    ((groupSetPresetName c service groupId presetIndex name ob).2.1 = c ∧
      ((groupSetPresetName c service groupId presetIndex name ob).1
          = false ∨
        ob = CallResult.value
          ((groupSetPresetName c service groupId presetIndex name ob).1))) :=
  ⟨⟨proxyCall_state, proxyCall_fst_default_or_value⟩,
   ⟨proxyCall_state, proxyCall_fst_default_or_value⟩,
   ⟨proxyCall_state, proxyCall_fst_default_or_value⟩,
   ⟨proxyCall_state, proxyCall_fst_default_or_value⟩,
   ⟨proxyCall_state, proxyCall_fst_default_or_value⟩,
   ⟨proxyCall_state, proxyCall_fst_default_or_value⟩,
   ⟨proxyCall_state, proxyCall_fst_default_or_value⟩,
   ⟨proxyCall_state, proxyCall_fst_default_or_value⟩,
   ⟨proxyCall_state, proxyCall_fst_default_or_value⟩,
   ⟨proxyCall_state, proxyCall_fst_default_or_value⟩,
   ⟨proxyCall_state, proxyCall_fst_default_or_value⟩,
   ⟨proxyCall_state, proxyCall_fst_default_or_value⟩,
   ⟨proxyCall_state, proxyCall_fst_default_or_value⟩,
   ⟨proxyCall_state, proxyCall_fst_default_or_value⟩,
   ⟨proxyCall_state, proxyCall_fst_default_or_value⟩,
   ⟨proxyCall_state, proxyCall_fst_default_or_value⟩,
   ⟨proxyCall_state, proxyCall_fst_default_or_value⟩,
   ⟨proxyCall_state, proxyCall_fst_default_or_value⟩⟩

/-- Claim C7: after `SecurityModuleFacadeModule::Start` runs,
`GetService()` returns exactly the `SecurityModuleFacadeService` that
`Start` constructed from the four dependencies and the handler, and the
trace shows the base `GrpcFacadeModule::Start` ran before the service
was constructed. -/
theorem facade_C7_start_builds_service (deps : FacadeDeps)
    (s : FacadeModuleState) :
    SecurityModuleFacadeModule.GetService
        (SecurityModuleFacadeModule.Start deps s).1
      = some (SecurityModuleFacadeService.construct deps.securityModule
          deps.l2capLeModule deps.l2capClassicModule deps.hciLayer
          deps.handler) ∧
    (SecurityModuleFacadeModule.Start deps s).2
      = [FacadeEvent.grpcFacadeModuleStart,
         FacadeEvent.newSecurityModuleFacadeService
           (SecurityModuleFacadeService.construct deps.securityModule
             deps.l2capLeModule deps.l2capClassicModule deps.hciLayer
             deps.handler)] :=
  ⟨rfl, rfl⟩

/-- Claim C8: `setConnectionPolicy` returns `false` without forwarding
anything whenever the policy is neither `CONNECTION_POLICY_FORBIDDEN`
nor `CONNECTION_POLICY_ALLOWED` (in particular for
`CONNECTION_POLICY_UNKNOWN`), even with the service attached, and
whatever the adapter state and device are. -/
theorem hap_C8_invalid_policy_not_forwarded
    (c : ClientState) (device : Option BluetoothDevice)
    (connectionPolicy : Int) (ob : CallResult Bool)
    (hp1 : connectionPolicy ≠ CONNECTION_POLICY_FORBIDDEN)
    (hp2 : connectionPolicy ≠ CONNECTION_POLICY_ALLOWED) :
    setConnectionPolicy c (some ()) device connectionPolicy ob
      = (false, c, []) := by
  have hg : (c.mAdapter.isEnabled && isValidDevice device
      && (connectionPolicy == CONNECTION_POLICY_FORBIDDEN
          || connectionPolicy == CONNECTION_POLICY_ALLOWED)) = false := by
    simp [hp1, hp2]
  rw [setConnectionPolicy, proxyCall_guard_eq_false hg]

/-- Claim C8 witness: concrete evaluation at
`CONNECTION_POLICY_UNKNOWN` with the adapter on and a valid device. -/
theorem hap_C8_invalid_policy_not_forwarded_witness :
    setConnectionPolicy sampleClient (some ()) (some sampleDevice)
      CONNECTION_POLICY_UNKNOWN (CallResult.value true)
      = (false, sampleClient, []) :=
  hap_C8_invalid_policy_not_forwarded sampleClient (some sampleDevice)
    CONNECTION_POLICY_UNKNOWN (CallResult.value true) (by decide)
    (by decide)

/-- Claim C9: the four group operations validate nothing about the
group identifier and check no device: for every integer `groupId`, with
the service attached and the adapter enabled, each call is forwarded
with that `groupId` unchanged, and the forwarded call carries no
device. -/
theorem hap_C9_group_operations_no_validation
    (c : ClientState) (groupId presetIndex : Int) (name : String)
    (ob : CallResult Bool) (he : isEnabled c = true) :
    groupSelectActivePreset c (some ()) groupId presetIndex ob
      = (awaitGetValue false ob, c,
        [ServiceCall.groupSelectActivePreset groupId presetIndex
          c.mAttributionSource]) ∧
    groupNextActivePreset c (some ()) groupId ob
      = (awaitGetValue false ob, c,
        [ServiceCall.groupNextActivePreset groupId
          c.mAttributionSource]) ∧
    groupPreviousActivePreset c (some ()) groupId ob
      = (awaitGetValue false ob, c,
        [ServiceCall.groupPreviousActivePreset groupId
          c.mAttributionSource]) ∧
    groupSetPresetName c (some ()) groupId presetIndex name ob
      = (awaitGetValue false ob, c,
        [ServiceCall.groupSetPresetName groupId presetIndex name
          c.mAttributionSource]) :=
  ⟨proxyCall_guard_eq_true he, proxyCall_guard_eq_true he,
   proxyCall_guard_eq_true he, proxyCall_guard_eq_true he⟩

/-- Claim C9 witness: concrete evaluation at the out-of-range group
identifier -42. -/
theorem hap_C9_group_operations_no_validation_witness :
    groupNextActivePreset sampleClient (some ()) (-42)
      (CallResult.value true)
      = (true, sampleClient,
        [ServiceCall.groupNextActivePreset (-42)
          sampleClient.mAttributionSource]) :=
  (hap_C9_group_operations_no_validation sampleClient (-42) 3
    sampleAddress (CallResult.value true) (by decide)).2.1

/-- Claim C10: passing a null device, or a device whose address fails
`checkBluetoothAddress`, to a device-taking operation never throws:
`isValidDevice` returns `false` for null and for an invalid address,
and each operation returns its per-method default without contacting
the service, in every proxy and service state. -/
theorem hap_C10_invalid_device_safe
    (c : ClientState) (service : Option Unit)
    (device : Option BluetoothDevice) (d : BluetoothDevice)
    (connectionPolicy presetIndex : Int) (name : String)
    (ob : CallResult Bool) (oi : CallResult Int)
    (hbad : checkBluetoothAddress d.getAddress = false)
    (hdev : device = none ∨ ∃ d0, device = some d0 ∧
      checkBluetoothAddress d0.getAddress = false) :
    isValidDevice none = false ∧
    isValidDevice (some d) = false ∧
    setConnectionPolicy c service device connectionPolicy ob
      = (false, c, []) ∧
    getConnectionPolicy c service device oi
      = (CONNECTION_POLICY_FORBIDDEN, c, []) ∧
    getConnectionState c service device oi = (STATE_DISCONNECTED, c, []) ∧
    getHapGroup c service device oi = (HAP_GROUP_UNAVAILABLE, c, []) ∧
    getActivePresetIndex c service device ob = (false, c, []) ∧
    selectActivePreset c service device presetIndex ob = (false, c, []) ∧
    nextActivePreset c service device ob = (false, c, []) ∧
    previousActivePreset c service device ob = (false, c, []) ∧
    getPresetInfo c service device presetIndex ob = (false, c, []) ∧
    getAllPresetsInfo c service device ob = (false, c, []) ∧
    getFeatures c service device ob = (false, c, []) ∧
    setPresetName c service device presetIndex name ob
      = (false, c, []) := by
  have hval : isValidDevice device = false := by
    rcases hdev with h | ⟨d0, h, hb0⟩
    · subst h; rfl
    · subst h; simp [isValidDevice, hb0]
  refine ⟨rfl, ?_, ?_, ?_, ?_, ?_, ?_, ?_, ?_, ?_, ?_, ?_, ?_, ?_⟩
  case _ => simp [isValidDevice, hbad]
  all_goals
    apply proxyCall_guard_eq_false
    simp [hval]

/-- Claim C10 witness: concrete evaluation with a null device and an
invalid-address device, with the service attached and the adapter
on. -/
theorem hap_C10_invalid_device_safe_witness :
    isValidDevice (some badDevice) = false ∧
    getHapGroup sampleClient (some ()) none (CallResult.value 3)
      = (HAP_GROUP_UNAVAILABLE, sampleClient, []) :=
  ⟨(hap_C10_invalid_device_safe sampleClient (some ()) none badDevice
      100 1 sampleAddress (CallResult.value true) (CallResult.value 3)
      (by decide) (Or.inl rfl)).2.1,
   (hap_C10_invalid_device_safe sampleClient (some ()) none badDevice
      100 1 sampleAddress (CallResult.value true) (CallResult.value 3)
      (by decide) (Or.inl rfl)).2.2.2.2.2.1⟩

end BtSpec
